import Mathlib

/-!
Shallow embedding of src/agent/ncp_wpantund.cpp (ControllerWpantund),
the wpantund NCP controller of the border router agent.

Modelling conventions:
 * machine integers are Nat with explicit `% 2 ^ w` where the C code
   truncates (uint16_t casts, uint8_t stores);
 * a byte array received from DBus is a `List Nat` whose entries are below
   256 (uint8_t values);
 * an out-of-bounds memory access (C undefined behavior) is modelled by
   `Option`: a function returns `none` exactly when the C code would read
   or write outside the bounds of an array;
 * DBus itself is external: incoming messages and method replies are
   explicit arguments, outgoing messages are returned as `BusAction`
   values, and the success of `dbus_connection_send` is an explicit
   `sendOk` argument;
 * the otbr macros from common/code_utils.hpp keep their standard
   expansion: `SuccessOrExit(x)` jumps to `exit` when `x` is nonzero and
   `VerifyOrExit(c, action)` runs `action` and jumps to `exit` when `c`
   is false.
-/

namespace BorderRouter

/-! ### Wire constants (wpan-properties.h vocabulary) -/

def kWPANTUNDProperty_TmfProxyEnabled : String := "TmfProxy:Enabled"

def kWPANTUNDProperty_TmfProxyStream : String := "TmfProxy:Stream"

def kWPANTUNDProperty_NCPState : String := "NCP:State"

def kWPANTUNDProperty_NetworkName : String := "Network:Name"

def kWPANTUNDProperty_NetworkXPANID : String := "Network:XPANID"

def kWPANTUNDProperty_NetworkPSKc : String := "Network:PSKc"

def kWPANTUNDProperty_NCPHardwareAddress : String := "NCP:HardwareAddress"

def kSizeExtPanId : Nat := 8

def kSizePSKc : Nat := 16

def kSizeEui64 : Nat := 8

def SPINEL_STATUS_OK : Nat := 0

/-! ### Basic data model -/

/-- Return codes of type `otbrError` used by the controller. -/
inductive OtbrError where
  | OTBR_ERROR_NONE
  | OTBR_ERROR_ERRNO
  | OTBR_ERROR_DBUS
deriving DecidableEq

/-- Result of a DBus filter callback. -/
inductive DBusHandlerResult where
  | handled
  | notYetHandled
deriving DecidableEq

/-- The single DBus argument the property decoder looks at after the
property-name key: a basic string, a basic 64-bit integer, a byte array,
or anything else (`invalid`). -/
inductive DBusArg where
  | str (s : String)
  | u64 (v : Nat)
  | bytes (bs : List Nat)
  | invalid
deriving DecidableEq

/-- Events handed to `EventEmitter::Emit` by the controller. -/
inductive Event where
  | tmfProxyStream (body : List Nat) (locator : Nat) (port : Nat)
  | threadState (associated : Bool)
  | networkName (name : String)
  | extPanId (bytes : List Nat)
  | pskc (bytes : List Nat)
deriving DecidableEq

/-- Outcome of one `ParseEvent` call: the returned `otbrError` together
with the events emitted on the way, or `none` when the C code performed an
out-of-bounds access (undefined behavior). -/
abbrev ParseOutcome := Option (OtbrError × List Event)

/-- Mutable controller fields relevant to the claims: `mInterfaceDBusName`
(the resolved daemon bus name, the empty string when unset, matching the
test for a NUL first byte on the C char buffer), `mInterfaceName` (the
configured interface) and `mInterfaceDBusPath`. -/
structure CtrlState where
  mInterfaceDBusName : String
  mInterfaceName : String
  mInterfaceDBusPath : String
deriving DecidableEq

/-- An outgoing DBus method call handed to `dbus_connection_send`. -/
inductive BusAction where
  | propSetBool (dest : String) (path : String) (key : String) (value : Bool)
  | propSetBytes (dest : String) (path : String) (key : String) (value : List Nat)
deriving DecidableEq

/-! ### Little helpers for byte/integer views -/

/-- Little-endian memory image of a `uint64_t` holding value `v`
(`n` bytes, least significant first): how the integer sits in host memory
on a little-endian machine. -/
def leBytes : Nat → Nat → List Nat
  | 0, _ => []
  | n + 1, v => v % 256 :: leBytes n (v / 256)

/-- Value of a byte string read big-endian (first byte most
significant). -/
def beVal (bs : List Nat) : Nat :=
  bs.foldl (fun acc b => acc * 256 + b) 0

/-- Check whether `needle` occurs at the start of `hay`. -/
def startsWithChars : List Char → List Char → Bool
  | [], _ => true
  | _ :: _, [] => false
  | c :: cs, h :: hs => c == h && startsWithChars cs hs

/-- Model of `strstr(hay, needle) != NULL`: `needle` occurs somewhere in
`hay` (an empty needle is always found). -/
def strstrOccurs (needle : List Char) : List Char → Bool
  | [] => startsWithChars needle []
  | c :: hs => startsWithChars needle (c :: hs) || strstrOccurs needle hs

/-! ### Property Codec: ParseEvent -/

/-- The `kWPANTUNDProperty_TmfProxyStream` branch of
`ControllerWpantund::ParseEvent`.  The C code takes
`len = (uint16_t)nelements` and then pops four trailing bytes with
`buf[--len]`, so every index is reduced `% 65536`; the emitted body is the
first `len` bytes after the four decrements.  `port` and `locator` are
`uint16_t` accumulated as `lo` then `|= hi << 8`.  A read outside the
array is undefined behavior, modelled as `none`. -/
def decodeProxyStream (bs : List Nat) : ParseOutcome :=
  let len0 := bs.length % 65536
  let i1 := (len0 + 65535) % 65536
  let i2 := (i1 + 65535) % 65536
  let i3 := (i2 + 65535) % 65536
  let i4 := (i3 + 65535) % 65536
  match bs[i1]?, bs[i2]?, bs[i3]?, bs[i4]? with
  | some pLo, some pHi, some lLo, some lHi =>
      some (OtbrError.OTBR_ERROR_NONE,
        [Event.tmfProxyStream (bs.take i4)
          ((lLo ||| (lHi <<< 8)) % 65536)
          ((pLo ||| (pHi <<< 8)) % 65536)])
  | _, _, _, _ => none

/-- `ControllerWpantund::ParseEvent`: decode the payload of property
`aKey` and emit the corresponding event.  String keys are compared with
`strcmp` against the wire constants, in the order of the C if/else
cascade.  Branch notes:
 * `TmfProxy:Stream` recurses into a byte array (anything else is
   undefined behavior of `dbus_message_iter_recurse`);
 * `NCP:State` and `Network:Name` read a basic string;
 * `Network:XPANID` accepts a `uint64` (byte-reversed on the
   little-endian host before emission) or a byte array that must have
   exactly `kSizeExtPanId` entries (`OTBR_ERROR_DBUS` otherwise); any
   other argument type leaves `xpanid = 0` and still emits its 8 zero
   bytes;
 * `Network:PSKc` requires a byte array of exactly `kSizePSKc` entries
   (`OTBR_ERROR_DBUS` otherwise);
 * any other key falls through and returns `OTBR_ERROR_NONE` without
   emitting. -/
def ParseEvent (aKey : String) (aArg : DBusArg) : ParseOutcome :=
  if aKey = kWPANTUNDProperty_TmfProxyStream then
    match aArg with
    | DBusArg.bytes bs => decodeProxyStream bs
    | _ => none
  else if aKey = kWPANTUNDProperty_NCPState then
    match aArg with
    | DBusArg.str state =>
        some (OtbrError.OTBR_ERROR_NONE, [Event.threadState (state = "associated")])
    | _ => none
  else if aKey = kWPANTUNDProperty_NetworkName then
    match aArg with
    | DBusArg.str networkName =>
        some (OtbrError.OTBR_ERROR_NONE, [Event.networkName networkName])
    | _ => none
  else if aKey = kWPANTUNDProperty_NetworkXPANID then
    match aArg with
    | DBusArg.u64 v =>
        some (OtbrError.OTBR_ERROR_NONE, [Event.extPanId ((leBytes 8 v).reverse)])
    | DBusArg.bytes bs =>
        if bs.length = kSizeExtPanId then
          some (OtbrError.OTBR_ERROR_NONE, [Event.extPanId bs])
        else
          some (OtbrError.OTBR_ERROR_DBUS, [])
    | _ =>
        some (OtbrError.OTBR_ERROR_NONE, [Event.extPanId (List.replicate 8 0)])
  else if aKey = kWPANTUNDProperty_NetworkPSKc then
    match aArg with
    | DBusArg.bytes bs =>
        if bs.length = kSizePSKc then
          some (OtbrError.OTBR_ERROR_NONE, [Event.pskc bs])
        else
          some (OtbrError.OTBR_ERROR_DBUS, [])
    | _ => none
  else
    some (OtbrError.OTBR_ERROR_NONE, [])

/-! ### Signal filter -/

/-- The fields of an incoming DBus message the signal filter inspects:
sender bus name, object path, whether the message is the expected
property-changed signal, the first argument (the property-name key, `none`
when `dbus_message_iter_init` fails or the key is NULL) and the remaining
payload. -/
structure DBusSignalMessage where
  sender : Option String
  path : Option String
  isPropChangedSignal : Bool
  key : Option String
  arg : DBusArg
deriving DecidableEq

/-- Observable outcome of one `HandlePropertyChangedSignal` call: the
filter result, the number of `TmfProxyStart` attempts triggered, and the
`ParseEvent` outcome when the decoder ran (`none` when it did not). -/
structure HandleOutcome where
  hresult : DBusHandlerResult
  startAttempts : Nat
  parsed : Option ParseOutcome
deriving DecidableEq

/-- The restart-detection predicate of the filter:
`sender && path && strcmp(sender, mInterfaceDBusName) && strstr(path, mInterfaceName)`. -/
def restartNeeded (st : CtrlState) (msg : DBusSignalMessage) : Bool :=
  match msg.sender, msg.path with
  | some sender, some path =>
      if sender = st.mInterfaceDBusName then false
      else strstrOccurs st.mInterfaceName.data path.data
  | _, _ => false

/-- `ControllerWpantund::HandlePropertyChangedSignal`.  `result` starts as
`DBUS_HANDLER_RESULT_NOT_YET_HANDLED`; a sender/path mismatch triggers one
`TmfProxyStart` attempt before anything else; a message that is not the
property-changed signal, has no arguments or a NULL key exits with the
initial result.  Otherwise the payload is decoded and the C line
`SuccessOrExit(OTBR_ERROR_NONE == ParseEvent(key, &iter))` jumps to
`exit` precisely when the comparison is nonzero, i.e. when `ParseEvent`
returned `OTBR_ERROR_NONE`, leaving `result` at NOT_YET_HANDLED; only when
`ParseEvent` failed does control fall through to
`result = DBUS_HANDLER_RESULT_HANDLED`.  (`TmfProxyStart`'s own bus I/O
and state update do not influence the rest of the filter, so only the
attempt count is recorded here.) -/
def HandlePropertyChangedSignal (st : CtrlState) (msg : DBusSignalMessage) : HandleOutcome :=
  let starts : Nat := if restartNeeded st msg then 1 else 0
  if msg.isPropChangedSignal then
    match msg.key with
    | Option.none => ⟨DBusHandlerResult.notYetHandled, starts, Option.none⟩
    | some key =>
        match ParseEvent key msg.arg with
        | some (OtbrError.OTBR_ERROR_NONE, evs) =>
            ⟨DBusHandlerResult.notYetHandled, starts,
              some (some (OtbrError.OTBR_ERROR_NONE, evs))⟩
        | pr => ⟨DBusHandlerResult.handled, starts, some pr⟩
  else
    ⟨DBusHandlerResult.notYetHandled, starts, Option.none⟩

/-! ### Proxy operations -/

/-- `ControllerWpantund::TmfProxyEnable`: builds a PropSet method call for
`TmfProxy:Enabled` with one boolean argument and hands it to
`dbus_connection_send`; returns `OTBR_ERROR_ERRNO` when the send fails. -/
def TmfProxyEnable (st : CtrlState) (aEnable : Bool) (sendOk : Bool) :
    OtbrError × List BusAction :=
  (if sendOk then OtbrError.OTBR_ERROR_NONE else OtbrError.OTBR_ERROR_ERRNO,
   [BusAction.propSetBool st.mInterfaceDBusName st.mInterfaceDBusPath
      kWPANTUNDProperty_TmfProxyEnabled aEnable])

/-- `ControllerWpantund::TmfProxyStart`: resolve the daemon bus name for
the interface (`lookup` is the result of
`lookup_dbus_name_from_interface`, `none` on failure), rebuild the object
path, then enable the proxy. -/
def TmfProxyStart (st : CtrlState) (lookup : Option String) (sendOk : Bool) :
    OtbrError × CtrlState × List BusAction :=
  match lookup with
  | Option.none => (OtbrError.OTBR_ERROR_ERRNO, st, [])
  | some resolved =>
      let st2 : CtrlState :=
        ⟨resolved, st.mInterfaceName, "/org/wpantund/" ++ st.mInterfaceName⟩
      let r := TmfProxyEnable st2 true sendOk
      (r.1, st2, r.2)

/-- The byte vector built by `ControllerWpantund::TmfProxySend`: the
caller's buffer followed by big-endian locator and big-endian port, each
byte stored into a `uint8_t` slot. -/
def TmfProxySendData (aBuffer : List Nat) (aLocator aPort : Nat) : List Nat :=
  aBuffer ++
    [(aLocator >>> 8) % 256, (aLocator &&& 255) % 256,
     (aPort >>> 8) % 256, (aPort &&& 255) % 256]

/-- `ControllerWpantund::TmfProxySend`: package `TmfProxySendData` as a
PropSet of `TmfProxy:Stream` and send it. -/
def TmfProxySend (st : CtrlState) (aBuffer : List Nat) (aLocator aPort : Nat)
    (sendOk : Bool) : OtbrError × List BusAction :=
  (if sendOk then OtbrError.OTBR_ERROR_NONE else OtbrError.OTBR_ERROR_ERRNO,
   [BusAction.propSetBytes st.mInterfaceDBusName st.mInterfaceDBusPath
      kWPANTUNDProperty_TmfProxyStream (TmfProxySendData aBuffer aLocator aPort)])

/-- `ControllerWpantund::TmfProxyStop`: when `mInterfaceDBusName` starts
with a NUL byte (never bound) it returns `OTBR_ERROR_NONE` directly,
otherwise it returns `TmfProxyEnable(FALSE)`.  The controller state is
returned unchanged — the C function never writes any member field. -/
def TmfProxyStop (st : CtrlState) (sendOk : Bool) :
    OtbrError × CtrlState × List BusAction :=
  if st.mInterfaceDBusName = "" then
    (OtbrError.OTBR_ERROR_NONE, st, [])
  else
    let r := TmfProxyEnable st false sendOk
    (r.1, st, r.2)

/-! ### Synchronous property RPC -/

/-- Event kinds accepted by `RequestEvent` (the `kEvent...` constants). -/
inductive EventKind where
  | kEventExtPanId
  | kEventThreadState
  | kEventNetworkName
  | kEventPSKc
  | kEventTmfProxyStream
deriving DecidableEq

/-- The `switch (aEvent)` of `ControllerWpantund::RequestEvent`: map an
event kind to the property key, `none` for kinds outside the switch. -/
def requestEventKey : EventKind → Option String
  | EventKind.kEventExtPanId => some kWPANTUNDProperty_NetworkXPANID
  | EventKind.kEventThreadState => some kWPANTUNDProperty_NCPState
  | EventKind.kEventNetworkName => some kWPANTUNDProperty_NetworkName
  | EventKind.kEventPSKc => some kWPANTUNDProperty_NetworkPSKc
  | _ => Option.none

/-- Reply to a synchronous PropGet as `RequestEvent` reads it: a leading
`uint32` status followed by the property payload. -/
structure PropReply where
  status : Nat
  payload : DBusArg
deriving DecidableEq

/-- `ControllerWpantund::RequestEvent`.  `reply` is the result of
`dbus_connection_send_with_reply_and_block`: the outer `none` is a
transport failure (`OTBR_ERROR_DBUS`), the inner `none` a reply with no
arguments (`errno = ENOENT`, `OTBR_ERROR_ERRNO`).  A status different
from `SPINEL_STATUS_OK` returns `OTBR_ERROR_ERRNO`; otherwise the rest of
the reply goes through the same `ParseEvent` as the signal filter. -/
def RequestEvent (aEvent : EventKind) (reply : Option (Option PropReply)) : ParseOutcome :=
  match requestEventKey aEvent with
  | Option.none => some (OtbrError.OTBR_ERROR_ERRNO, [])
  | some key =>
      match reply with
      | Option.none => some (OtbrError.OTBR_ERROR_DBUS, [])
      | some Option.none => some (OtbrError.OTBR_ERROR_ERRNO, [])
      | some (some r) =>
          if r.status = SPINEL_STATUS_OK then ParseEvent key r.payload
          else some (OtbrError.OTBR_ERROR_ERRNO, [])

/-! ### GetProperty / GetEui64 -/

/-- Reply to `RequestProperty` as `GetProperty` reads it with
`dbus_message_get_args(INT32 status, ARRAY of BYTE)`. -/
structure GetPropReply where
  status : Nat
  bytes : List Nat
deriving DecidableEq

/-- `ControllerWpantund::GetProperty`: `reply = none` models a failed
`RequestProperty` (the function exits with `OTBR_ERROR_ERRNO`, leaving the
caller's buffer and size untouched); on a reply, a status different from
`SPINEL_STATUS_OK` also exits without touching the buffer; otherwise
`aSize = count` and `memcpy(aBuffer, buffer, aSize)` overwrites the first
`count` entries of the caller's buffer — with no check of `count` against
the buffer's capacity, so a reply longer than the buffer writes past its
end (undefined behavior, `none`). -/
def GetProperty (reply : Option GetPropReply) (aBuffer : List Nat) (aSize : Nat) :
    Option (OtbrError × List Nat × Nat) :=
  match reply with
  | Option.none => some (OtbrError.OTBR_ERROR_ERRNO, aBuffer, aSize)
  | some r =>
      if r.status = SPINEL_STATUS_OK then
        if r.bytes.length ≤ aBuffer.length then
          some (OtbrError.OTBR_ERROR_NONE,
            r.bytes ++ aBuffer.drop r.bytes.length, r.bytes.length)
        else Option.none
      else some (OtbrError.OTBR_ERROR_ERRNO, aBuffer, aSize)

/-- Observable outcome of `ControllerWpantund::GetEui64`: whether a
`GetProperty` request was issued, the `mEui64` buffer afterwards, the
returned pointer (`none` models returning NULL) and whether the
`assert(size == kSizeEui64)` predicate held (it is only evaluated on the
success path; on failure the assert is never reached and the field is
`true`). -/
structure Eui64Outcome where
  fetched : Bool
  mEui64 : List Nat
  ret : Option (List Nat)
  assertOk : Bool
deriving DecidableEq

/-- `ControllerWpantund::GetEui64`: unconditionally issues a `GetProperty`
request for `NCP:HardwareAddress` into the member buffer `mEui64` (there
is no check whether the buffer was already populated), then asserts that
the copied size is `kSizeEui64` and returns the buffer; on a failed
`GetProperty` it returns NULL. -/
def GetEui64 (mEui64 : List Nat) (reply : Option GetPropReply) : Option Eui64Outcome :=
  match GetProperty reply mEui64 0 with
  | Option.none => Option.none
  | some (e, buf, size) =>
      match e with
      | OtbrError.OTBR_ERROR_NONE => some ⟨true, buf, some buf, size == kSizeEui64⟩
      | _ => some ⟨true, buf, Option.none, true⟩

/-! ### Reduction lemmas for ParseEvent at each concrete key -/

theorem ParseEvent_tmfProxyStream_bytes (bs : List Nat) :
    ParseEvent kWPANTUNDProperty_TmfProxyStream (DBusArg.bytes bs) =
      decodeProxyStream bs := rfl

theorem ParseEvent_ncpState_str (s : String) :
    ParseEvent kWPANTUNDProperty_NCPState (DBusArg.str s) =
      some (OtbrError.OTBR_ERROR_NONE, [Event.threadState (s = "associated")]) := rfl

theorem ParseEvent_networkName_str (s : String) :
    ParseEvent kWPANTUNDProperty_NetworkName (DBusArg.str s) =
      some (OtbrError.OTBR_ERROR_NONE, [Event.networkName s]) := rfl

theorem ParseEvent_xpanid_u64 (v : Nat) :
    ParseEvent kWPANTUNDProperty_NetworkXPANID (DBusArg.u64 v) =
      some (OtbrError.OTBR_ERROR_NONE, [Event.extPanId ((leBytes 8 v).reverse)]) := rfl

theorem ParseEvent_xpanid_bytes (bs : List Nat) :
    ParseEvent kWPANTUNDProperty_NetworkXPANID (DBusArg.bytes bs) =
      (if bs.length = 8 then some (OtbrError.OTBR_ERROR_NONE, [Event.extPanId bs])
       else some (OtbrError.OTBR_ERROR_DBUS, [])) := rfl

theorem ParseEvent_pskc_bytes (bs : List Nat) :
    ParseEvent kWPANTUNDProperty_NetworkPSKc (DBusArg.bytes bs) =
      (if bs.length = 16 then some (OtbrError.OTBR_ERROR_NONE, [Event.pskc bs])
       else some (OtbrError.OTBR_ERROR_DBUS, [])) := rfl

/-! ### Claim theorems -/

/-- Claim C3: a byte-array payload for the extended-PAN-id (resp. the
network credential) decodes successfully and emits the bytes exactly when
its length is 8 (resp. 16); every other length returns `OTBR_ERROR_DBUS`
and emits nothing. -/
theorem c3_fixed_size_payloads (bs : List Nat) :
    ParseEvent kWPANTUNDProperty_NetworkXPANID (DBusArg.bytes bs) =
      (if bs.length = 8 then some (OtbrError.OTBR_ERROR_NONE, [Event.extPanId bs])
       else some (OtbrError.OTBR_ERROR_DBUS, [])) ∧
    ParseEvent kWPANTUNDProperty_NetworkPSKc (DBusArg.bytes bs) =
      (if bs.length = 16 then some (OtbrError.OTBR_ERROR_NONE, [Event.pskc bs])
       else some (OtbrError.OTBR_ERROR_DBUS, [])) :=
  ⟨ParseEvent_xpanid_bytes bs, ParseEvent_pskc_bytes bs⟩

/-- Claim C4 (code bug): a proxy-datagram-stream payload shorter than 4
bytes is NOT rejected with a protocol error: the `uint16_t` length
underflows and the decode reads outside the payload (undefined behavior,
modelled as `none`), emitting nothing and never reaching an
`OTBR_ERROR_DBUS` return. -/
theorem c4_short_datagram_underflows :
    ParseEvent kWPANTUNDProperty_TmfProxyStream (DBusArg.bytes []) = none ∧
    ParseEvent kWPANTUNDProperty_TmfProxyStream (DBusArg.bytes [1, 2, 3]) = none := by
  decide

/-- Claim C8: calling `TmfProxyStop` while the daemon binding was never
resolved (`mInterfaceDBusName` empty) performs no bus I/O, leaves the
state unchanged and returns `OTBR_ERROR_NONE`. -/
theorem c8_stop_before_start (st : CtrlState) (sendOk : Bool)
    (h : st.mInterfaceDBusName = "") :
    TmfProxyStop st sendOk = (OtbrError.OTBR_ERROR_NONE, st, []) := by
  simp [TmfProxyStop, h]

theorem c8_stop_before_start_witness :
    TmfProxyStop ⟨"", "wpan0", ""⟩ true =
      (OtbrError.OTBR_ERROR_NONE, (⟨"", "wpan0", ""⟩ : CtrlState), []) :=
  c8_stop_before_start ⟨"", "wpan0", ""⟩ true rfl

/-- Claim C9 (counterexample): after `TmfProxyStop` on a bound controller
the stored daemon bus name is NOT cleared: it still holds its old
non-empty value. -/
theorem c9_stop_does_not_clear_binding :
    ((TmfProxyStop ⟨"org.wpantund.wpan0", "wpan0", "/org/wpantund/wpan0"⟩
        true).2.1.mInterfaceDBusName = "org.wpantund.wpan0") ∧
    ("org.wpantund.wpan0" : String) ≠ "" := by
  constructor
  · rfl
  · decide

/-- Claim C9 (amended): `TmfProxyStop` never modifies the Daemon Binding:
the controller state after a stop equals the state before it, whether or
not the controller was bound. -/
theorem c9_stop_preserves_binding (st : CtrlState) (sendOk : Bool) :
    (TmfProxyStop st sendOk).2.1 = st := by
  unfold TmfProxyStop
  split <;> rfl

/-- Claim C1 (code bug): for a well-formed property-changed signal the
filter returns NOT_YET_HANDLED when the decode succeeds and HANDLED when
the decode fails — the comparison inside
`SuccessOrExit(OTBR_ERROR_NONE == ParseEvent(key, &iter))` inverts the
intended test, so a successfully decoded signal is passed through as
unhandled. -/
theorem c1_handled_result_inverted :
    (HandlePropertyChangedSignal ⟨"", "wpan0", ""⟩
        ⟨Option.none, Option.none, true, some kWPANTUNDProperty_NetworkName,
          DBusArg.str "foo"⟩).hresult = DBusHandlerResult.notYetHandled ∧
    ParseEvent kWPANTUNDProperty_NetworkName (DBusArg.str "foo") =
      some (OtbrError.OTBR_ERROR_NONE, [Event.networkName "foo"]) ∧
    (HandlePropertyChangedSignal ⟨"", "wpan0", ""⟩
        ⟨Option.none, Option.none, true, some kWPANTUNDProperty_NetworkXPANID,
          DBusArg.bytes [1]⟩).hresult = DBusHandlerResult.handled ∧
    ParseEvent kWPANTUNDProperty_NetworkXPANID (DBusArg.bytes [1]) =
      some (OtbrError.OTBR_ERROR_DBUS, []) := by
  decide

/-- Claim C10 (counterexample): `GetEui64` issues a fresh fetch even when
the buffer already holds a valid hardware address (so the buffer is not
populated at most once), and a status-OK reply of 4 bytes is copied into
the buffer — a partial write — before the size assertion fails. -/
theorem c10_eui64_not_cached_partial_write :
    GetEui64 [1, 2, 3, 4, 5, 6, 7, 8] (some ⟨0, [9, 9, 9, 9, 9, 9, 9, 9]⟩) =
      some ⟨true, [9, 9, 9, 9, 9, 9, 9, 9], some [9, 9, 9, 9, 9, 9, 9, 9], true⟩ ∧
    GetEui64 [0, 0, 0, 0, 0, 0, 0, 0] (some ⟨0, [1, 2, 3, 4]⟩) =
      some ⟨true, [1, 2, 3, 4, 0, 0, 0, 0], some [1, 2, 3, 4, 0, 0, 0, 0], false⟩ ∧
    ([1, 2, 3, 4, 0, 0, 0, 0] : List Nat) ≠ [0, 0, 0, 0, 0, 0, 0, 0] := by
  decide

/-- Claim C10 (amended): `GetEui64` performs the property fetch on every
call; a failed fetch (no reply, or a status different from
`SPINEL_STATUS_OK`) leaves the buffer unchanged and returns NULL; a
status-OK reply is copied into the buffer before the 8-byte size
assertion is evaluated, so a reply of `k ≤ 8` bytes overwrites the first
`k` entries and the assertion holds only when `k = 8`. -/
theorem c10_eui64_fetch_behavior (buf bytes : List Nat) (st : Nat)
    (hbuf : buf.length = 8) (hlen : bytes.length ≤ 8) (hst : st ≠ 0) :
    GetEui64 buf Option.none = some ⟨true, buf, Option.none, true⟩ ∧
    GetEui64 buf (some ⟨st, bytes⟩) = some ⟨true, buf, Option.none, true⟩ ∧
    GetEui64 buf (some ⟨0, bytes⟩) =
      some ⟨true, bytes ++ buf.drop bytes.length,
        some (bytes ++ buf.drop bytes.length), bytes.length == 8⟩ := by
  refine ⟨rfl, ?_, ?_⟩
  · simp [GetEui64, GetProperty, SPINEL_STATUS_OK, hst]
  · simp [GetEui64, GetProperty, SPINEL_STATUS_OK, hbuf, hlen, kSizeEui64]

theorem c10_eui64_fetch_behavior_witness :
    GetEui64 (List.replicate 8 0) Option.none =
      some ⟨true, List.replicate 8 0, Option.none, true⟩ ∧
    GetEui64 (List.replicate 8 0) (some ⟨5, [1, 2, 3, 4]⟩) =
      some ⟨true, List.replicate 8 0, Option.none, true⟩ ∧
    GetEui64 (List.replicate 8 0) (some ⟨0, [1, 2, 3, 4]⟩) =
      some ⟨true, [1, 2, 3, 4, 0, 0, 0, 0], some [1, 2, 3, 4, 0, 0, 0, 0], false⟩ :=
  c10_eui64_fetch_behavior (List.replicate 8 0) [1, 2, 3, 4] 5 (by decide) (by decide)
    (by decide)

/-- The number of `TmfProxyStart` attempts produced by one filter call is
decided by `restartNeeded` alone, on every control path of the filter. -/
theorem handle_startAttempts_eq (st : CtrlState) (msg : DBusSignalMessage) :
    (HandlePropertyChangedSignal st msg).startAttempts =
      if restartNeeded st msg then 1 else 0 := by
  simp only [HandlePropertyChangedSignal]
  split
  · split
    · rfl
    · split <;> rfl
  · rfl

/-- Claim C5: a message whose sender differs from the bound daemon bus
name and whose object path contains the configured interface name
triggers exactly one `TmfProxyStart` attempt, for every value of the
remaining message fields (in particular whether or not the message is a
valid property-changed signal). -/
theorem c5_sender_change_triggers_one_start (st : CtrlState) (msg : DBusSignalMessage)
    (sender path : String) (hs : msg.sender = some sender) (hp : msg.path = some path)
    (hne : sender ≠ st.mInterfaceDBusName)
    (hin : strstrOccurs st.mInterfaceName.data path.data = true) :
    (HandlePropertyChangedSignal st msg).startAttempts = 1 := by
  rw [handle_startAttempts_eq]
  have hr : restartNeeded st msg = true := by
    simp only [restartNeeded, hs, hp]
    rw [if_neg hne]
    exact hin
  rw [hr]
  rfl

theorem c5_sender_change_triggers_one_start_witness :
    (HandlePropertyChangedSignal ⟨"org.old.name", "wpan0", ""⟩
        ⟨some "org.new.name", some "/org/wpantund/wpan0", false, Option.none,
          DBusArg.invalid⟩).startAttempts = 1 :=
  c5_sender_change_triggers_one_start _ _ "org.new.name" "/org/wpantund/wpan0" rfl rfl
    (by decide) (by decide)

/-- Big-endian value / little-endian memory round trip: the little-endian
memory image of the big-endian value of a byte string is the reversed
byte string. -/
theorem leBytes_beVal (bs : List Nat) (hb : ∀ b ∈ bs, b < 256) :
    leBytes bs.length (beVal bs) = bs.reverse := by
  induction bs using List.reverseRecOn with
  | nil => rfl
  | append_singleton ys b ih =>
      have hby : ∀ x ∈ ys, x < 256 := fun x hx => hb x (by simp [hx])
      have hbb : b < 256 := hb b (by simp)
      have hval : beVal (ys ++ [b]) = beVal ys * 256 + b := by
        simp [beVal, List.foldl_append]
      have hlen : (ys ++ [b]).length = ys.length + 1 := by simp
      rw [hlen, hval]
      simp only [leBytes]
      have h1 : (beVal ys * 256 + b) % 256 = b := by omega
      have h2 : (beVal ys * 256 + b) / 256 = beVal ys := by omega
      rw [h1, h2, ih hby]
      simp

/-- Claim C6: an extended-PAN-id arriving as a 64-bit integer whose value
reads big-endian as bytes `b0..b7` is emitted, on the little-endian host,
as exactly `[b0,...,b7]` (the in-memory bytes are reversed); an 8-byte
array payload is emitted as-is with no reversal. -/
theorem c6_xpanid_endianness (bs : List Nat) (hlen : bs.length = 8)
    (hb : ∀ b ∈ bs, b < 256) :
    ParseEvent kWPANTUNDProperty_NetworkXPANID (DBusArg.u64 (beVal bs)) =
      some (OtbrError.OTBR_ERROR_NONE, [Event.extPanId bs]) ∧
    ParseEvent kWPANTUNDProperty_NetworkXPANID (DBusArg.bytes bs) =
      some (OtbrError.OTBR_ERROR_NONE, [Event.extPanId bs]) := by
  have hle : leBytes 8 (beVal bs) = bs.reverse := by
    rw [← hlen]; exact leBytes_beVal bs hb
  constructor
  · rw [ParseEvent_xpanid_u64, hle, List.reverse_reverse]
  · rw [ParseEvent_xpanid_bytes, if_pos hlen]

theorem c6_xpanid_endianness_witness :
    ParseEvent kWPANTUNDProperty_NetworkXPANID
        (DBusArg.u64 (beVal [1, 2, 3, 4, 5, 6, 7, 8])) =
      some (OtbrError.OTBR_ERROR_NONE, [Event.extPanId [1, 2, 3, 4, 5, 6, 7, 8]]) ∧
    ParseEvent kWPANTUNDProperty_NetworkXPANID
        (DBusArg.bytes [1, 2, 3, 4, 5, 6, 7, 8]) =
      some (OtbrError.OTBR_ERROR_NONE, [Event.extPanId [1, 2, 3, 4, 5, 6, 7, 8]]) :=
  c6_xpanid_endianness [1, 2, 3, 4, 5, 6, 7, 8] (by decide) (by decide)

/-- Claim C7: for every event kind the switch maps to a property key, a
read-now reply whose leading status is `SPINEL_STATUS_OK` is decoded by
the very same `ParseEvent` as the signal filter, so the decode outcome
(and hence the emitted event) of `RequestEvent` on a payload equals the
outcome the filter records when the same payload arrives as a
property-changed signal. -/
theorem c7_request_matches_signal_decode (k : EventKind) (key : String)
    (arg : DBusArg) (st : CtrlState) (hk : requestEventKey k = some key) :
    RequestEvent k (some (some ⟨SPINEL_STATUS_OK, arg⟩)) = ParseEvent key arg ∧
    (HandlePropertyChangedSignal st
        ⟨Option.none, Option.none, true, some key, arg⟩).parsed =
      some (ParseEvent key arg) := by
  constructor
  · unfold RequestEvent
    rw [hk]
    rfl
  · simp only [HandlePropertyChangedSignal]
    rcases hpr : ParseEvent key arg with _ | ⟨e, evs⟩
    · simp [hpr]
    · cases e <;> simp [hpr]

theorem c7_request_matches_signal_decode_witness :
    RequestEvent EventKind.kEventThreadState
        (some (some ⟨SPINEL_STATUS_OK, DBusArg.str "associated"⟩)) =
      ParseEvent kWPANTUNDProperty_NCPState (DBusArg.str "associated") ∧
    (HandlePropertyChangedSignal ⟨"", "wpan0", ""⟩
        ⟨Option.none, Option.none, true, some kWPANTUNDProperty_NCPState,
          DBusArg.str "associated"⟩).parsed =
      some (ParseEvent kWPANTUNDProperty_NCPState (DBusArg.str "associated")) :=
  c7_request_matches_signal_decode EventKind.kEventThreadState
    kWPANTUNDProperty_NCPState (DBusArg.str "associated") ⟨"", "wpan0", ""⟩ rfl

/-- Accumulating a low byte and then or-ing a value shifted left by 8
is plain positional arithmetic when the low byte fits in 8 bits. -/
theorem lor_byte (lo hi : Nat) (hlo : lo < 256) :
    lo ||| (hi <<< 8) = hi * 256 + lo := by
  have h28 : (2 : Nat) ^ 8 = 256 := by norm_num
  have hlo2 : lo < 2 ^ 8 := by rw [h28]; exact hlo
  apply Nat.eq_of_testBit_eq
  intro j
  rw [Nat.testBit_lor, Nat.testBit_shiftLeft]
  have hadd : hi * 256 + lo = 2 ^ 8 * hi + lo := by rw [h28, Nat.mul_comm]
  rw [hadd, Nat.testBit_mul_pow_two_add hi hlo2 j]
  rcases Nat.lt_or_ge j 8 with hj | hj
  · have hd : decide (j ≥ 8) = false := by
      simp only [decide_eq_false_iff_not]
      omega
    rw [if_pos hj, hd]
    simp
  · have hd : decide (j ≥ 8) = true := by
      simp only [decide_eq_true_eq]
      exact hj
    have hlobit : Nat.testBit lo j = false := by
      apply Nat.testBit_lt_two_pow
      calc lo < 2 ^ 8 := hlo2
        _ ≤ 2 ^ j := Nat.pow_le_pow_right (by norm_num) hj
    rw [if_neg (by omega), hd, hlobit]
    simp

/-- Decoding a byte array of the shape `body ++ [a, b, c, d]` whose total
length still fits the `uint16_t` cast: the four trailing bytes are popped
in order (port low, port high, locator low, locator high) and the body is
returned unchanged.  The bound allows total length 65536 as well: there
the cast truncates the length to 0 but the four wrapped-around index
decrements land on the same four trailing bytes. -/
theorem decodeProxyStream_append4 (B : List Nat) (a b c d : Nat)
    (h : B.length + 4 ≤ 65536) :
    decodeProxyStream (B ++ [a, b, c, d]) =
      some (OtbrError.OTBR_ERROR_NONE,
        [Event.tmfProxyStream B ((b ||| (a <<< 8)) % 65536)
          ((d ||| (c <<< 8)) % 65536)]) := by
  have hlen : (B ++ [a, b, c, d]).length = B.length + 4 := by simp
  simp only [decodeProxyStream, hlen]
  have e1 : ((B.length + 4) % 65536 + 65535) % 65536 = B.length + 3 := by omega
  have e2 : (B.length + 3 + 65535) % 65536 = B.length + 2 := by omega
  have e3 : (B.length + 2 + 65535) % 65536 = B.length + 1 := by omega
  have e4 : (B.length + 1 + 65535) % 65536 = B.length := by omega
  rw [e1, e2, e3, e4]
  have g1 : (B ++ [a, b, c, d])[B.length + 3]? = some d := by
    rw [List.getElem?_append_right (by omega)]
    simp
  have g2 : (B ++ [a, b, c, d])[B.length + 2]? = some c := by
    rw [List.getElem?_append_right (by omega)]
    simp
  have g3 : (B ++ [a, b, c, d])[B.length + 1]? = some b := by
    rw [List.getElem?_append_right (by omega)]
    simp
  have g4 : (B ++ [a, b, c, d])[B.length]? = some a := by
    rw [List.getElem?_append_right (by omega)]
    simp
  rw [g1, g2, g3, g4, List.take_left' rfl]

/-- Decoding a byte array of the shape `(x :: B) ++ [a, b, c, d]` with
total length exactly 65537: the `uint16_t` cast truncates the length to
1, so the decrementing index walk reads position 0 (the first body byte)
as the port low byte and wraps around to positions 65535/65534/65533 for
the other three; the emitted body happens to be the full original body
but the port picks up the first body byte. -/
theorem decodeProxyStream_wrap1 (x : Nat) (B : List Nat) (a b c d : Nat)
    (h : B.length = 65532) :
    decodeProxyStream ((x :: B) ++ [a, b, c, d]) =
      some (OtbrError.OTBR_ERROR_NONE,
        [Event.tmfProxyStream (x :: B) ((b ||| (a <<< 8)) % 65536)
          ((x ||| (c <<< 8)) % 65536)]) := by
  have hB : (x :: B).length = 65533 := by rw [List.length_cons, h]
  have hlen : ((x :: B) ++ [a, b, c, d]).length = 65537 := by
    rw [List.length_append, hB]
    rfl
  simp only [decodeProxyStream, hlen]
  have e1 : (65537 % 65536 + 65535) % 65536 = 0 := by norm_num
  have e2 : (0 + 65535) % 65536 = 65535 := by norm_num
  have e3 : (65535 + 65535) % 65536 = 65534 := by norm_num
  have e4 : (65534 + 65535) % 65536 = 65533 := by norm_num
  rw [e1, e2, e3, e4]
  have g1 : ((x :: B) ++ [a, b, c, d])[0]? = some x := by
    rw [List.getElem?_append, if_pos (by rw [hB]; omega)]
    exact List.getElem?_cons_zero
  have g2 : ((x :: B) ++ [a, b, c, d])[65535]? = some c := by
    rw [List.getElem?_append_right (by rw [hB]; omega), hB]
    norm_num
  have g3 : ((x :: B) ++ [a, b, c, d])[65534]? = some b := by
    rw [List.getElem?_append_right (by rw [hB]; omega), hB]
    norm_num
  have g4 : ((x :: B) ++ [a, b, c, d])[65533]? = some a := by
    rw [List.getElem?_append_right (by rw [hB]), hB]
    norm_num
  rw [g1, g2, g3, g4, List.take_left' hB]

/-- Claim C2 (amended): the round trip holds for every body whose encoded
length fits the decoder's `uint16_t` length cast, i.e.
`B.length ≤ 65532`: the encoded array is
`B ++ [L >>> 8, L &&& 255, P >>> 8, P &&& 255]` and decoding it emits
exactly body `B`, locator `L` and port `P`. -/
theorem c2_proxy_datagram_roundtrip (B : List Nat) (L P : Nat)
    (hlen : B.length ≤ 65532) (hL : L < 65536) (hP : P < 65536) :
    TmfProxySendData B L P = B ++ [L >>> 8, L &&& 255, P >>> 8, P &&& 255] ∧
    decodeProxyStream (TmfProxySendData B L P) =
      some (OtbrError.OTBR_ERROR_NONE, [Event.tmfProxyStream B L P]) := by
  have h28 : (2 : Nat) ^ 8 = 256 := by norm_num
  have hLs : L >>> 8 = L / 256 := by rw [Nat.shiftRight_eq_div_pow, h28]
  have hPs : P >>> 8 = P / 256 := by rw [Nat.shiftRight_eq_div_pow, h28]
  have hLa : L &&& 255 = L % 256 := by
    have h := Nat.and_pow_two_sub_one_eq_mod L 8
    rw [h28] at h
    norm_num at h
    exact h
  have hPa : P &&& 255 = P % 256 := by
    have h := Nat.and_pow_two_sub_one_eq_mod P 8
    rw [h28] at h
    norm_num at h
    exact h
  have hdata : TmfProxySendData B L P = B ++ [L / 256, L % 256, P / 256, P % 256] := by
    unfold TmfProxySendData
    rw [hLs, hPs, hLa, hPa]
    have m1 : L / 256 % 256 = L / 256 := by omega
    have m2 : L % 256 % 256 = L % 256 := by omega
    have m3 : P / 256 % 256 = P / 256 := by omega
    have m4 : P % 256 % 256 = P % 256 := by omega
    rw [m1, m2, m3, m4]
  constructor
  · rw [hdata, hLs, hPs, hLa, hPa]
  · rw [hdata, decodeProxyStream_append4 B _ _ _ _ (by omega)]
    have hloc : (L % 256 ||| ((L / 256) <<< 8)) % 65536 = L := by
      rw [lor_byte (L % 256) (L / 256) (by omega)]
      omega
    have hport : (P % 256 ||| ((P / 256) <<< 8)) % 65536 = P := by
      rw [lor_byte (P % 256) (P / 256) (by omega)]
      omega
    rw [hloc, hport]

theorem c2_proxy_datagram_roundtrip_witness :
    TmfProxySendData [1, 2] 4660 43981 =
      [1, 2] ++ [4660 >>> 8, 4660 &&& 255, 43981 >>> 8, 43981 &&& 255] ∧
    decodeProxyStream (TmfProxySendData [1, 2] 4660 43981) =
      some (OtbrError.OTBR_ERROR_NONE, [Event.tmfProxyStream [1, 2] 4660 43981]) :=
  c2_proxy_datagram_roundtrip [1, 2] 4660 43981 (by decide) (by decide) (by decide)

/-- Claim C2 (counterexample): for a body of length 65533 (allowed by the
`uint16_t` length parameter of `TmfProxySend`) the round trip fails: the
encoded length 65537 is truncated to 1 by the decoder's `uint16_t` cast,
so the decoded port picks up the first body byte (5) instead of the sent
port (0). -/
theorem c2_roundtrip_fails_at_65533 :
    decodeProxyStream (TmfProxySendData (5 :: List.replicate 65532 0) 0 0) ≠
      some (OtbrError.OTBR_ERROR_NONE,
        [Event.tmfProxyStream (5 :: List.replicate 65532 0) 0 0]) := by
  have hdata : TmfProxySendData (5 :: List.replicate 65532 0) 0 0 =
      (5 :: List.replicate 65532 0) ++ [0, 0, 0, 0] := rfl
  have hdec := decodeProxyStream_wrap1 5 (List.replicate 65532 0) 0 0 0 0
    (List.length_replicate 65532 0)
  have hport5 : ((5 : Nat) ||| (0 <<< 8)) % 65536 = 5 := by decide
  have hloc0 : ((0 : Nat) ||| (0 <<< 8)) % 65536 = 0 := by decide
  rw [hdata, hdec, hport5, hloc0]
  intro hcontra
  injection hcontra with h1
  injection h1 with hfst hsnd
  injection hsnd with hhead htail
  injection hhead with hbody hlocator hport
  exact absurd hport (by decide)

end BorderRouter
